import Mathlib

/-!
# Verification of the ompps teaching-plan record keeper

This file gives a shallow embedding of `src/app.py` (a small Flask +
SQLite application tracking per-student workspaces with teaching
objectives, long-term/short-term goal hierarchies and dated session
records, split across two categories) and proves properties of the
embedded operations.

Modelling conventions:
* SQLite tables become Lean lists of row structures; the row-id
  `AUTOINCREMENT` columns become explicit sequence counters in the
  database state.
* Timestamps produced by `now_iso()` / `today_ymd()` are fixed-width
  strings that compare lexicographically exactly like the instants they
  denote, so they are modelled as integers (seconds), and string
  comparison in SQL becomes integer comparison.
* `ORDER BY` on a key that is total on the rows at hand is modelled as a
  stable insertion sort by that key.
* Python string primitives (`str.strip`, `int(...)` on a digit string,
  the regex `^long_term_goal_(\d+)$`) are re-implemented structurally on
  `List Char` so that all definitions evaluate inside the kernel.
* Form payloads (`request.form`) become a structure with the key list, a
  first-value lookup and a multi-value lookup, mirroring the MultiDict
  interface the code uses.
-/

/-! ## String primitives (structural re-implementations) -/

/-- Whitespace test used by `str.strip` (space, tab, newline, carriage return). -/
def wsChar (c : Char) : Bool := c == ' ' || c == '\t' || c == '\n' || c == '\r'

/-- Drop leading whitespace characters. -/
def dropWhileWs : List Char → List Char
  | [] => []
  | c :: cs => if wsChar c then dropWhileWs cs else c :: cs

/-- `str.strip()`: remove leading and trailing whitespace. -/
def strTrim (s : String) : String := ⟨(dropWhileWs (dropWhileWs s.data).reverse).reverse⟩

/-- Decimal digit value of a character, if it is an ASCII digit. -/
def digitVal (c : Char) : Option Nat :=
  if 48 ≤ c.toNat && c.toNat ≤ 57 then some (c.toNat - 48) else none

/-- Parse a digit string into a number, failing on any non-digit. -/
def charsToNatAux : List Char → Nat → Option Nat
  | [], acc => some acc
  | c :: cs, acc =>
    match digitVal c with
    | none => none
    | some d => charsToNatAux cs (acc * 10 + d)

/-- Strip a literal character-list front-part from a list, if it is there. -/
def stripPre : List Char → List Char → Option (List Char)
  | [], rest => some rest
  | _ :: _, [] => none
  | p :: ps, c :: cs => if p = c then stripPre ps cs else none

/-- The regex match `^long_term_goal_(\d+)$` from the `objectives` POST
handler: strip the literal front part, then require a nonempty
all-digit remainder, returning its value. -/
def parseGoalKey (k : String) : Option Nat :=
  match stripPre "long_term_goal_".data k.data with
  | none => none
  | some [] => none
  | some (c :: cs) => charsToNatAux (c :: cs) 0

/-- ASCII digit character. -/
def digitChar (n : Nat) : Char := Char.ofNat (48 + n)

/-- Decimal digits of a number (fuel-driven so that it is structural). -/
def natDigitsGo : Nat → Nat → List Char
  | 0, _ => []
  | fuel+1, n => if n < 10 then [digitChar n] else natDigitsGo fuel (n / 10) ++ [digitChar (n % 10)]

/-- Decimal rendering of a number, as used by the f-string key lookups. -/
def natToStr (n : Nat) : String := ⟨natDigitsGo (n+1) n⟩

/-- Stable insertion of an element into a list sorted by `le`. -/
def insertSorted (le : α → α → Bool) (x : α) : List α → List α
  | [] => [x]
  | y :: ys => if le x y then x :: y :: ys else y :: insertSorted le x ys

/-- Stable insertion sort; models SQL `ORDER BY` (all order keys used in
the source are total on the rows involved, ids being unique). -/
def sortBy (le : α → α → Bool) : List α → List α
  | [] => []
  | x :: xs => insertSorted le x (sortBy le xs)

/-! ## Data model: the five tables of `init_db` (post-migration shape) -/

/-- A row of the `workspaces` table. -/
structure Workspace where
  id : Nat
  code : String
  created_at : Int
  updated_at : Option Int
  student_name : Option String
  agency : Option String
deriving DecidableEq, Repr

/-- A row of the `objectives` table (composite primary key `(workspace_id, category)`). -/
structure Objective where
  workspace_id : Nat
  category : String
  target_date : String
  teaching_goal : String
deriving DecidableEq, Repr

/-- A row of the `long_term_groups` table. -/
structure LongTermGroup where
  id : Nat
  workspace_id : Nat
  category : String
  long_term_goal : String
  ord : Nat
deriving DecidableEq, Repr

/-- A row of the `short_terms` table. -/
structure ShortTerm where
  id : Nat
  group_id : Nat
  item : String
  ord : Nat
deriving DecidableEq, Repr

/-- A row of the `records` table. -/
structure SessionRecord where
  id : Nat
  workspace_id : Nat
  category : String
  teach_date : String
  teach_time : String
  effectiveness : String
  created_at : Int
deriving DecidableEq, Repr

/-- The database state: the five tables plus the `AUTOINCREMENT`
sequence counter of each table that has a generated row id. -/
structure DB where
  wsSeq : Nat
  groupSeq : Nat
  stSeq : Nat
  recSeq : Nat
  workspaces : List Workspace
  objectives : List Objective
  long_term_groups : List LongTermGroup
  short_terms : List ShortTerm
  records : List SessionRecord
deriving DecidableEq, Repr

/-- `norm_cat`: strip, then fall back to `定向` for anything outside the
two-element category domain. -/
def normCat (category : String) : String :=
  let c := strTrim category
  if c = "定向" ∨ c = "生活" then c else "定向"

/-! ## Read operations (`get_*` helpers of the source) -/

/-- `get_objectives`: `fetchone` on the `(workspace_id, category)` filter. -/
def getObjectives (db : DB) (wsId : Nat) (category : String) : Option Objective :=
  let cat := normCat category
  db.objectives.find? (fun o => o.workspace_id == wsId && o.category == cat)

/-- `ORDER BY ord ASC, id ASC` on long-term groups. -/
def groupLe (a b : LongTermGroup) : Bool :=
  a.ord < b.ord || (a.ord == b.ord && a.id ≤ b.id)

/-- `get_long_term_groups`. -/
def getLongTermGroups (db : DB) (wsId : Nat) (category : String) : List LongTermGroup :=
  let cat := normCat category
  sortBy groupLe (db.long_term_groups.filter (fun g => g.workspace_id == wsId && g.category == cat))

/-- `ORDER BY ord ASC, id ASC` on short terms (within one group). -/
def stLe (a b : ShortTerm) : Bool :=
  a.ord < b.ord || (a.ord == b.ord && a.id ≤ b.id)

/-- `get_short_terms_by_group_ids`, seen as the lookup function of the
dictionary the source builds: for a group id in the requested list, its
short terms ordered by `(ord, id)`; for any other key the `.get(gid, [])`
default, the empty list. -/
def getShortTermsByGroupIds (db : DB) (groupIds : List Nat) (gid : Nat) : List ShortTerm :=
  if groupIds.contains gid then
    sortBy stLe (db.short_terms.filter (fun st => st.group_id == gid))
  else []

/-- `ORDER BY created_at ASC, id ASC` on session records. -/
def recLe (a b : SessionRecord) : Bool :=
  a.created_at < b.created_at || (a.created_at == b.created_at && a.id ≤ b.id)

/-- `get_records`. -/
def getRecords (db : DB) (wsId : Nat) (category : String) : List SessionRecord :=
  let cat := normCat category
  sortBy recLe (db.records.filter (fun r => r.workspace_id == wsId && r.category == cat))

/-! ## Form payload and the `objectives` POST handler -/

/-- A parsed form payload: the list of submitted keys, the first-value
lookup (`form.get`) and the multi-value lookup (`form.getlist`). -/
structure Form where
  keys : List String
  get : String → Option String
  getlist : String → List String

/-- The group-index parse of the `objectives` POST handler:
collect every key matching `^long_term_goal_(\d+)$`, then
`sorted(set(...))` — deduplicate and sort ascending. -/
def parseGroupIdxs (f : Form) : List Nat :=
  sortBy (fun a b => decide (a ≤ b)) ((f.keys.filterMap parseGoalKey).dedup)

/-- The stripped long-term text submitted for one group index
(`(request.form.get(f"long_term_goal_{idx}") or "").strip()`). -/
def ltTextAt (f : Form) (idx : Nat) : String :=
  strTrim ((f.get ("long_term_goal_" ++ natToStr idx)).getD "")

/-- The surviving short-term items submitted for one group index:
each item stripped, empty ones dropped
(`[s.strip() for s in sts if s.strip()]`). -/
def stItemsAt (f : Form) (idx : Nat) : List String :=
  (f.getlist ("short_term_" ++ natToStr idx ++ "[]")).filterMap
    (fun s => let t := strTrim s; if t = "" then none else some t)

/-- `groups_payload`: walk the sorted deduplicated indices; a group whose
long-term text is blank after stripping is dropped entirely, otherwise it
contributes its text and its surviving short-term items. -/
def groupsPayload (f : Form) : List (String × List String) :=
  (parseGroupIdxs f).filterMap (fun idx =>
    let lt := ltTextAt f idx
    if lt = "" then none else some (lt, stItemsAt f idx))

/-- Statement (a) of the save transaction: the `INSERT ... ON CONFLICT
(workspace_id, category) DO UPDATE` upsert of the objective row. -/
def upsertObjective (wsId : Nat) (cat target_date teaching_goal : String) (db : DB) : DB :=
  if db.objectives.any (fun o => o.workspace_id == wsId && o.category == cat) then
    { db with objectives := db.objectives.map (fun o =>
        if o.workspace_id == wsId && o.category == cat then
          { o with target_date := target_date, teaching_goal := teaching_goal }
        else o) }
  else
    { db with objectives := db.objectives ++ [⟨wsId, cat, target_date, teaching_goal⟩] }

/-- Statement (b): `DELETE FROM long_term_groups WHERE workspace_id=? AND
category=?`; the `ON DELETE CASCADE` foreign key removes the short terms
of every deleted group. -/
def deleteGroups (wsId : Nat) (cat : String) (db : DB) : DB :=
  let deadIds := (db.long_term_groups.filter
      (fun g => g.workspace_id == wsId && g.category == cat)).map (fun g => g.id)
  let keptGroups := db.long_term_groups.filter
    (fun g => !(g.workspace_id == wsId && g.category == cat))
  let keptShorts := db.short_terms.filter (fun st => !(deadIds.contains st.group_id))
  { db with long_term_groups := keptGroups, short_terms := keptShorts }

/-- Insert the short terms of one rebuilt group, `ord` counting from the
given start (`enumerate(sts, start=1)` in the source). -/
def insertShortsGo (gid : Nat) : List String → Nat → DB → DB
  | [], _, db => db
  | item :: rest, j, db =>
    insertShortsGo gid rest (j+1)
      { db with stSeq := db.stSeq + 1,
                short_terms := db.short_terms ++ [⟨db.stSeq, gid, item, j⟩] }

/-- Statement (c): re-insert the surviving groups in payload order with
`ord` counting from the given start (`enumerate(groups_payload, start=1)`),
each followed by its short terms; the freshly assigned group row id
(`cur.lastrowid`) is threaded into the short-term inserts. -/
def insertGroupsGo (wsId : Nat) (cat : String) :
    List (String × List String) → Nat → DB → DB
  | [], _, db => db
  | (lt, sts) :: rest, ordIdx, db =>
    let gid := db.groupSeq
    let db1 := { db with groupSeq := db.groupSeq + 1,
                         long_term_groups := db.long_term_groups ++ [⟨gid, wsId, cat, lt, ordIdx⟩] }
    insertGroupsGo wsId cat rest (ordIdx + 1) (insertShortsGo gid sts 1 db1)

/-- Statement (d): `UPDATE workspaces SET updated_at=? WHERE id=?`. -/
def touchWorkspace (wsId : Nat) (ts : Int) (db : DB) : DB :=
  { db with workspaces := db.workspaces.map (fun w =>
      if w.id == wsId then { w with updated_at := some ts } else w) }

/-- The body of the save transaction of the `objectives` POST handler:
upsert the objective, delete the category's groups (cascading to their
short terms), rebuild groups and short terms, touch `updated_at`. -/
def saveObjectiveTx (wsId : Nat) (cat target_date teaching_goal : String)
    (payload : List (String × List String)) (ts : Int) (db : DB) : DB :=
  touchWorkspace wsId ts
    (insertGroupsGo wsId cat payload 1
      (deleteGroups wsId cat
        (upsertObjective wsId cat target_date teaching_goal db)))

/-- Outcome of a POST handler: a flash-error rejection or success. -/
inductive SaveResult
  | err (msg : String)
  | ok
deriving DecidableEq, Repr

/-- The `objectives` POST handler: category normalisation, the
`(form value or default).strip()` field reads, the two validation
rejections (each leaving the database untouched), then the save
transaction. -/
def objectivesPost (f : Form) (wsId : Nat) (cat0 today : String) (ts : Int)
    (db : DB) : SaveResult × DB :=
  let cat := normCat cat0
  let target_date := strTrim (match f.get "target_date" with
    | none => today
    | some s => if s = "" then today else s)
  let teaching_goal := strTrim ((f.get "teaching_goal").getD "")
  if parseGroupIdxs f = [] then (.err "至少需要一個長期目標。", db)
  else if groupsPayload f = [] then (.err "長期目標不可全空白。", db)
  else (.ok, saveObjectiveTx wsId cat target_date teaching_goal (groupsPayload f) ts db)

/-! ## Records POST handler -/

/-- The `records` POST handler, `action == "add"` branch: field reads
with defaults, the blank-time rejection (no mutation), otherwise the
record insert stamped `created_at = now` plus the `updated_at` touch. -/
def recordsAddPost (wsId : Nat) (cat0 : String) (teach_date0 teach_time0 eff0 : Option String)
    (today : String) (ts : Int) (db : DB) : SaveResult × DB :=
  let cat := normCat cat0
  let teach_date := strTrim (match teach_date0 with
    | none => today
    | some s => if s = "" then today else s)
  let teach_time := strTrim (teach_time0.getD "")
  let effectiveness := strTrim (eff0.getD "")
  if teach_time = "" then (.err "教學時間不可空白（例如：14:00-16:00）。", db)
  else
    (.ok, touchWorkspace wsId ts
      { db with recSeq := db.recSeq + 1,
                records := db.records ++
                  [⟨db.recSeq, wsId, cat, teach_date, teach_time, effectiveness, ts⟩] })

/-- The `records` POST handler, `action == "delete"` branch:
`DELETE FROM records WHERE id=? AND workspace_id=? AND category=?`.
No other table is touched. -/
def recordsDeletePost (wsId : Nat) (cat0 : String) (recId : Nat) (db : DB) : DB :=
  let cat := normCat cat0
  let kept := db.records.filter
    (fun r => !(r.id == recId && r.workspace_id == wsId && r.category == cat))
  { db with records := kept }

/-! ## Workspace creation, seeding and retention sweep -/

/-- `create_workspace`: insert a workspace row with
`created_at = updated_at = now` and the stripped student/agency fields
(the caller has already validated them non-blank); the fresh row id is
returned. The random unique code is an input here, code generation
being a boundary concern. -/
def createWorkspace (code sn ag : String) (ts : Int) (db : DB) : Nat × DB :=
  (db.wsSeq,
   { db with wsSeq := db.wsSeq + 1,
             workspaces := db.workspaces ++ [⟨db.wsSeq, code, ts, some ts, some sn, some ag⟩] })

/-- One loop iteration of `init_workspace_defaults`: `INSERT OR IGNORE`
of the category's objective row (defaulting `target_date` to today and
an empty teaching goal), then insert of the default long-term group with
`ord = 1`. -/
def seedCategory (wsId : Nat) (cat today : String) (db : DB) : DB :=
  let db1 :=
    if db.objectives.any (fun o => o.workspace_id == wsId && o.category == cat) then db
    else { db with objectives := db.objectives ++ [⟨wsId, cat, today, ""⟩] }
  { db1 with groupSeq := db1.groupSeq + 1,
             long_term_groups := db1.long_term_groups ++
               [⟨db1.groupSeq, wsId, cat, "感官知覺/動作能力", 1⟩] }

/-- `init_workspace_defaults`: seed both categories, `定向` then `生活`. -/
def initWorkspaceDefaults (wsId : Nat) (today : String) (db : DB) : DB :=
  seedCategory wsId "生活" today (seedCategory wsId "定向" today db)

/-- The creation path of the `student` POST handler: when no workspace
for the (student, agency) pair exists, `create_workspace` followed by
`init_workspace_defaults` on the fresh id. -/
def studentCreateFlow (code sn ag : String) (ts : Int) (today : String) (db : DB) : Nat × DB :=
  let r := createWorkspace code sn ag ts db
  (r.1, initWorkspaceDefaults r.1 today r.2)

/-- `RETENTION_DAYS` of the source. -/
def RETENTION_DAYS : Int := 60

/-- One day of the timestamp unit (seconds), `timedelta(days=...)`. -/
def daySeconds : Int := 86400

/-- `COALESCE(updated_at, created_at)` of a workspace row. -/
def lastActivity (w : Workspace) : Int := w.updated_at.getD w.created_at

/-- `cleanup_expired_workspaces`: delete every workspace whose
`COALESCE(updated_at, created_at)` is older than `now - RETENTION_DAYS`,
cascading to its objectives, groups (and their short terms) and records;
return `cur.rowcount`, the number of workspace rows deleted. -/
def cleanupExpiredWorkspaces (now : Int) (db : DB) : Nat × DB :=
  let cutoff := now - RETENTION_DAYS * daySeconds
  let expired := fun (w : Workspace) => decide (lastActivity w < cutoff)
  let doomedIds := (db.workspaces.filter expired).map (fun w => w.id)
  let deadGroupIds := (db.long_term_groups.filter
      (fun g => doomedIds.contains g.workspace_id)).map (fun g => g.id)
  let keptW := db.workspaces.filter (fun w => !(expired w))
  let keptO := db.objectives.filter (fun o => !(doomedIds.contains o.workspace_id))
  let keptG := db.long_term_groups.filter (fun g => !(doomedIds.contains g.workspace_id))
  let keptS := db.short_terms.filter (fun st => !(deadGroupIds.contains st.group_id))
  let keptR := db.records.filter (fun r => !(doomedIds.contains r.workspace_id))
  ((db.workspaces.filter expired).length,
   { db with workspaces := keptW, objectives := keptO, long_term_groups := keptG,
             short_terms := keptS, records := keptR })

/-! ## Export formatter -/

/-- `build_export_text`, body of the per-category closure `one(cat)`
up to (excluding) the trailing separator block. The Python closure
appends to a shared `lines` list; here each piece is a list that is
concatenated. -/
def sectionBody (db : DB) (wsId : Nat) (cat : String) : List String :=
  let obj := getObjectives db wsId cat
  let groups := getLongTermGroups db wsId cat
  let stMap := getShortTermsByGroupIds db (groups.map (fun g => g.id))
  let recs := getRecords db wsId cat
  ("【教學目標｜" ++ cat ++ "】")
  :: ((match obj with
      | some o => ["訂定日期：" ++ o.target_date, "教學目標：",
                   if o.teaching_goal = "" then "（未填）" else o.teaching_goal]
      | none => ["（尚未填寫）"])
  ++ [""]
  ++ ["長期目標與短期目標："]
  ++ (if groups.isEmpty then ["（未填長期/短期目標）", ""]
      else groups.enum.flatMap (fun p =>
        ["長期目標" ++ natToStr (p.1 + 1) ++ ". " ++ p.2.long_term_goal]
        ++ (let sts := stMap p.2.id
            if sts.isEmpty then ["  （未填短期目標）"]
            else sts.enum.map (fun q => "  " ++ natToStr (q.1 + 1) ++ ". " ++ q.2.item))
        ++ [""]))
  ++ ["【教學記錄｜" ++ cat ++ "】"]
  ++ (if recs.isEmpty then ["（尚未新增）"]
      else recs.enum.flatMap (fun p =>
        ["第" ++ natToStr (p.1 + 1) ++ "次",
         "教學日期：" ++ p.2.teach_date,
         "教學時間：" ++ p.2.teach_time,
         "教學成效評估：",
         p.2.effectiveness,
         ""])))

/-- The separator block each category section ends with. -/
def sectionSep : List String := ["", "========", ""]

/-- One full category section of the export: body plus separator. -/
def sectionLines (db : DB) (wsId : Nat) (cat : String) : List String :=
  sectionBody db wsId cat ++ sectionSep

/-- The line list of `build_export_text`: for `both`, `one("定向")` runs
before `one("生活")`; otherwise the single requested category. -/
def buildExportLines (db : DB) (wsId : Nat) (category : String) : List String :=
  if category = "both" then sectionLines db wsId "定向" ++ sectionLines db wsId "生活"
  else sectionLines db wsId category

/-- `build_export_text`: `"\n".join(lines)`. -/
def buildExportText (db : DB) (wsId : Nat) (category : String) : String :=
  String.intercalate "\n" (buildExportLines db wsId category)

/-- UTF-8 bytes of one code point. -/
def utf8Char (c : Char) : List Nat :=
  let n := c.toNat
  if n < 128 then [n]
  else if n < 2048 then [192 + n / 64, 128 + n % 64]
  else if n < 65536 then [224 + n / 4096, 128 + n / 64 % 64, 128 + n % 64]
  else [240 + n / 262144, 128 + n / 4096 % 64, 128 + n / 64 % 64, 128 + n % 64]

/-- UTF-8 byte encoding of a string. -/
def utf8Encode (s : String) : List Nat := (s.data.map utf8Char).flatten

/-- Python `str.encode("utf-8-sig")`: the byte-order marker `EF BB BF`
followed by the UTF-8 bytes. -/
def encodeUtf8Sig (s : String) : List Nat := [239, 187, 191] ++ utf8Encode s

/-- Category normalisation of the `export` route
(`定向`, `生活` and the pseudo-category `both` pass through). -/
def exportCat (category : String) : String :=
  let c := strTrim category
  if c = "定向" ∨ c = "生活" ∨ c = "both" then c else "定向"

/-- The downloaded file body of the `export` route:
`build_export_text(ws_id, cat).encode("utf-8-sig")`. -/
def exportBody (db : DB) (wsId : Nat) (category : String) : List Nat :=
  encodeUtf8Sig (buildExportText db wsId (exportCat category))

/-! ## Transaction runner for the atomicity claim -/

/-- The four statements of the save transaction, in source order. -/
def objectiveTxSteps (wsId : Nat) (cat target_date teaching_goal : String)
    (payload : List (String × List String)) (ts : Int) : List (DB → DB) :=
  [upsertObjective wsId cat target_date teaching_goal,
   deleteGroups wsId cat,
   insertGroupsGo wsId cat payload 1,
   touchWorkspace wsId ts]

/-- Attempt the statements in order; `failsAt i` injects a failure of the
`i`-th statement, which aborts the attempt. -/
def txAttempt : List (DB → DB) → (Nat → Bool) → Nat → DB → Option DB
  | [], _, _, db => some db
  | f :: rest, failsAt, i, db =>
    if failsAt i then none else txAttempt rest failsAt (i+1) (f db)

/-- Modelled from the spec: the transactional wrapper around the save
statements — the connection context manager of the source commits the
statements together on success and rolls every one of them back on
failure ("All four steps must be one transaction"); that engine
behaviour is not itself code under `src/`. The statements it runs are
translated from the source. -/
def runTransaction (steps : List (DB → DB)) (failsAt : Nat → Bool) (db : DB) : DB :=
  (txAttempt steps failsAt 0 db).getD db

/-! ## Sanity examples -/

example : parseGroupIdxs
    ⟨["long_term_goal_3", "long_term_goal_1", "long_term_goal_7", "cat"],
     fun _ => none, fun _ => []⟩ = [1, 3, 7] := by decide

example : normCat " 生活 " = "生活" := by decide

example : normCat "both" = "定向" := by decide

/-! ## Generic list lemmas -/

theorem filter_not_filter {α : Type} (p : α → Bool) (l : List α) :
    (l.filter (fun x => !(p x))).filter p = [] := by
  induction l with
  | nil => rfl
  | cons x xs ih =>
    by_cases h : p x
    · simp [List.filter, h, ih]
    · simp [List.filter, h, ih]

theorem filter_eq_nil_of_lt {gid : Nat} {l : List ShortTerm} (bound : Nat)
    (hb : ∀ st ∈ l, st.group_id < bound) (hle : bound ≤ gid) :
    l.filter (fun st => st.group_id == gid) = [] := by
  induction l with
  | nil => rfl
  | cons x xs ih =>
    have hx := hb x (by simp)
    have hne : (x.group_id == gid) = false := by
      simp only [beq_eq_false_iff_ne, ne_eq]
      omega
    simp only [List.filter, hne]
    exact ih (fun st hst => hb st (by simp [hst]))

theorem filterMap_if_eq_filter_map {ι β : Type} (l : List ι) (c : ι → Prop)
    [DecidablePred c] (g : ι → β) :
    l.filterMap (fun i => if c i then none else some (g i))
      = (l.filter (fun i => !(decide (c i)))).map g := by
  induction l with
  | nil => rfl
  | cons x xs ih =>
    by_cases h : c x
    · simp [List.filterMap_cons, List.filter, h, ih]
    · simp [List.filterMap_cons, List.filter, h, ih]

theorem map_eq_self_of_fixed {α : Type} {f : α → α} {l : List α}
    (h : ∀ x ∈ l, f x = x) : l.map f = l := by
  induction l with
  | nil => rfl
  | cons x xs ih =>
    simp only [List.map]
    rw [h x (by simp), ih (fun y hy => h y (by simp [hy]))]

theorem find?_append_of_none {α : Type} {p : α → Bool} {l l' : List α}
    (h : ∀ x ∈ l, p x = false) : (l ++ l').find? p = l'.find? p := by
  induction l with
  | nil => rfl
  | cons x xs ih =>
    simp only [List.cons_append, List.find?]
    rw [h x (by simp)]
    exact ih (fun y hy => h y (by simp [hy]))

/-! ## Structure-preservation lemmas for the save-transaction steps -/

theorem upsertObjective_groups (wsId : Nat) (cat td tg : String) (db : DB) :
    (upsertObjective wsId cat td tg db).long_term_groups = db.long_term_groups := by
  unfold upsertObjective; split <;> rfl

theorem upsertObjective_shorts (wsId : Nat) (cat td tg : String) (db : DB) :
    (upsertObjective wsId cat td tg db).short_terms = db.short_terms := by
  unfold upsertObjective; split <;> rfl

theorem upsertObjective_workspaces (wsId : Nat) (cat td tg : String) (db : DB) :
    (upsertObjective wsId cat td tg db).workspaces = db.workspaces := by
  unfold upsertObjective; split <;> rfl

theorem upsertObjective_groupSeq (wsId : Nat) (cat td tg : String) (db : DB) :
    (upsertObjective wsId cat td tg db).groupSeq = db.groupSeq := by
  unfold upsertObjective; split <;> rfl

theorem upsertObjective_stSeq (wsId : Nat) (cat td tg : String) (db : DB) :
    (upsertObjective wsId cat td tg db).stSeq = db.stSeq := by
  unfold upsertObjective; split <;> rfl

/-! ## The rebuilt rows, described as explicit lists -/

/-- Pair the elements of a list with ordinals counting from `k`. -/
def withOrds : List α → Nat → List (α × Nat)
  | [], _ => []
  | x :: xs, k => (x, k) :: withOrds xs (k+1)

/-- The group rows the rebuild inserts: payload order, ids counting from
`gseq`, `ord` counting from `k`. -/
def newGroups (wsId : Nat) (cat : String) : Nat → Nat → List (String × List String) → List LongTermGroup
  | _, _, [] => []
  | gseq, k, (lt, _) :: rest => ⟨gseq, wsId, cat, lt, k⟩ :: newGroups wsId cat (gseq+1) (k+1) rest

/-- The short-term rows inserted for one group: ids counting from `sseq`,
`ord` counting from `j`. -/
def shortsRow (gid : Nat) : Nat → List String → Nat → List ShortTerm
  | _, [], _ => []
  | sseq, item :: rest, j => ⟨sseq, gid, item, j⟩ :: shortsRow gid (sseq+1) rest (j+1)

/-- Total number of short-term rows a payload inserts. -/
def totalShorts : List (String × List String) → Nat
  | [] => 0
  | (_, sts) :: rest => sts.length + totalShorts rest

/-- All short-term rows the rebuild inserts, group ids counting from
`gseq` and short-term ids counting from `sseq`. -/
def newShorts : Nat → Nat → List (String × List String) → List ShortTerm
  | _, _, [] => []
  | gseq, sseq, (_, sts) :: rest => shortsRow gseq sseq sts 1 ++ newShorts (gseq+1) (sseq + sts.length) rest

theorem insertShortsGo_eq (gid : Nat) (sts : List String) :
    ∀ (j : Nat) (db : DB),
    insertShortsGo gid sts j db
      = { db with stSeq := db.stSeq + sts.length,
                  short_terms := db.short_terms ++ shortsRow gid db.stSeq sts j } := by
  induction sts with
  | nil => intro j db; simp [insertShortsGo, shortsRow]
  | cons item rest ih =>
    intro j db
    rw [insertShortsGo, ih]
    simp only [shortsRow, List.length_cons, DB.mk.injEq, List.append_assoc,
      List.singleton_append, true_and, and_true]
    omega

theorem insertGroupsGo_eq (wsId : Nat) (cat : String) (payload : List (String × List String)) :
    ∀ (k : Nat) (db : DB),
    insertGroupsGo wsId cat payload k db
      = { db with groupSeq := db.groupSeq + payload.length,
                  stSeq := db.stSeq + totalShorts payload,
                  long_term_groups := db.long_term_groups ++ newGroups wsId cat db.groupSeq k payload,
                  short_terms := db.short_terms ++ newShorts db.groupSeq db.stSeq payload } := by
  induction payload with
  | nil => intro k db; simp [insertGroupsGo, newGroups, newShorts, totalShorts]
  | cons hd rest ih =>
    intro k db
    obtain ⟨lt, sts⟩ := hd
    rw [insertGroupsGo, insertShortsGo_eq, ih]
    simp only [newGroups, newShorts, totalShorts, List.length_cons, DB.mk.injEq,
      List.append_assoc, List.singleton_append, true_and, and_true]
    exact ⟨by omega, by omega⟩

/-! ## C2: atomicity of the save transaction -/

/-- C2: `saveObjective`'s persistence is atomic per (workspace,
category): under the transactional wrapper, for every possible failure
pattern the resulting database is either completely unchanged (rollback)
or carries all four changes of the save transaction (objective upsert,
group delete with cascade, rebuild of groups and short terms,
`updated_at` touch) together; and a failure-free run applies exactly the
full transaction. -/
theorem c2_save_objective_atomic (wsId : Nat) (cat td tg : String)
    (payload : List (String × List String)) (ts : Int) (failsAt : Nat → Bool) (db : DB) :
    (runTransaction (objectiveTxSteps wsId cat td tg payload ts) failsAt db = db
      ∨ runTransaction (objectiveTxSteps wsId cat td tg payload ts) failsAt db
          = saveObjectiveTx wsId cat td tg payload ts db)
    ∧ runTransaction (objectiveTxSteps wsId cat td tg payload ts) (fun _ => false) db
        = saveObjectiveTx wsId cat td tg payload ts db := by
  constructor
  · by_cases h0 : failsAt 0
    · left; simp [runTransaction, objectiveTxSteps, txAttempt, h0]
    · by_cases h1 : failsAt 1
      · left; simp [runTransaction, objectiveTxSteps, txAttempt, h0, h1]
      · by_cases h2 : failsAt 2
        · left; simp [runTransaction, objectiveTxSteps, txAttempt, h0, h1, h2]
        · by_cases h3 : failsAt 3
          · left; simp [runTransaction, objectiveTxSteps, txAttempt, h0, h1, h2, h3]
          · right
            simp [runTransaction, objectiveTxSteps, txAttempt, h0, h1, h2, h3, saveObjectiveTx]
  · simp [runTransaction, objectiveTxSteps, txAttempt, saveObjectiveTx]

/-! ## C7: retention sweep -/

/-- A workspace whose last activity is 61 days in the past (relative to `now = 0`). -/
def ws61 : Workspace :=
  ⟨1, "code61", -(61 * daySeconds), some (-(61 * daySeconds)), some "a", some "b"⟩

/-- A workspace whose last activity is 59 days in the past (relative to `now = 0`). -/
def ws59 : Workspace :=
  ⟨2, "code59", -(59 * daySeconds), some (-(59 * daySeconds)), some "c", some "d"⟩

/-- Database containing exactly the 61-day-old and the 59-day-old workspaces. -/
def retentionExampleDB : DB := ⟨3, 1, 1, 1, [ws61, ws59], [], [], [], []⟩

/-- C7: the retention sweep with the default 60-day retention keeps
exactly the workspaces whose `COALESCE(updated_at, created_at)` is not
older than `now - 60` days, and returns the number of workspace rows it
removed; in the concrete example a workspace last updated 61 days ago is
removed (count 1) while one last updated 59 days ago survives. -/
theorem c7_cleanup_retention (now : Int) (db : DB) :
    ((cleanupExpiredWorkspaces now db).2.workspaces
        = db.workspaces.filter
            (fun w => !(decide (lastActivity w < now - RETENTION_DAYS * daySeconds)))
      ∧ (cleanupExpiredWorkspaces now db).1
        = (db.workspaces.filter
            (fun w => decide (lastActivity w < now - RETENTION_DAYS * daySeconds))).length)
    ∧ (cleanupExpiredWorkspaces 0 retentionExampleDB).1 = 1
    ∧ (cleanupExpiredWorkspaces 0 retentionExampleDB).2.workspaces = [ws59] :=
  ⟨⟨rfl, rfl⟩, by decide, by decide⟩

/-! ## C8: scoped record deletion -/

/-- C8: `deleteRecord` removes exactly the records matching the full
`(id, workspace, category)` triple; when the record id does not belong
to that `(workspace, category)` pair the call leaves the database
completely unchanged (and, being a total function, raises nothing). -/
theorem c8_delete_record_scoped (wsId : Nat) (cat0 : String) (recId : Nat) (db : DB) :
    ((recordsDeletePost wsId cat0 recId db).records
        = db.records.filter
            (fun r => !(r.id == recId && r.workspace_id == wsId && r.category == normCat cat0)))
    ∧ ((∀ r ∈ db.records,
          ¬(r.id = recId ∧ r.workspace_id = wsId ∧ r.category = normCat cat0)) →
        recordsDeletePost wsId cat0 recId db = db) := by
  constructor
  · rfl
  · intro h
    have hfix : (db.records.filter
        (fun r => !(r.id == recId && r.workspace_id == wsId && r.category == normCat cat0)))
        = db.records := by
      apply List.filter_eq_self.mpr
      intro r hr
      have hh := h r hr
      cases hx : (r.id == recId && r.workspace_id == wsId && r.category == normCat cat0) with
      | false => simp
      | true =>
        exfalso
        apply hh
        simpa [Bool.and_eq_true, beq_iff_eq, and_assoc] using hx
    have hdef : recordsDeletePost wsId cat0 recId db
        = { db with records := db.records.filter (fun r => !(r.id == recId && r.workspace_id == wsId && r.category == normCat cat0)) } := rfl
    rw [hdef, hfix]

/-! ## C9: export formatting for `both` -/

/-- C9: exporting with category `both` renders the orientation (`定向`)
section strictly before the daily-living (`生活`) section — the rendered
line list is the orientation section followed by the daily-living
section, the file opens with the orientation header, the orientation
section ends with the separator block standing between the two sections,
and the daily-living section begins with its own header right after —
and the downloaded file body is the rendered text encoded as UTF-8
prefixed with the `EF BB BF` byte-order marker. -/
theorem c9_export_both_order (db : DB) (wsId : Nat) :
    buildExportText db wsId "both"
        = String.intercalate "\n" (sectionLines db wsId "定向" ++ sectionLines db wsId "生活")
    ∧ (∃ pre, sectionLines db wsId "定向" = pre ++ ["", "========", ""])
    ∧ (buildExportLines db wsId "both").head? = some "【教學目標｜定向】"
    ∧ (sectionLines db wsId "生活").head? = some "【教學目標｜生活】"
    ∧ exportBody db wsId "both" = [239, 187, 191] ++ utf8Encode (buildExportText db wsId "both") := by
  refine ⟨by simp [buildExportText, buildExportLines],
          ⟨sectionBody db wsId "定向", rfl⟩, ?_, ?_, ?_⟩
  · have hexp : (buildExportLines db wsId "both")
        = sectionLines db wsId "定向" ++ sectionLines db wsId "生活" := by
      simp [buildExportLines]
    rw [hexp]
    show some ("【教學目標｜" ++ "定向" ++ "】") = some "【教學目標｜定向】"
    decide
  · show some ("【教學目標｜" ++ "生活" ++ "】") = some "【教學目標｜生活】"
    decide
  · show encodeUtf8Sig (buildExportText db wsId (exportCat "both")) = _
    rw [show exportCat "both" = "both" from by decide]
    rfl

/-! ## C5: `updated_at` touching -/

theorem touchWorkspace_workspaces (wsId : Nat) (ts : Int) (db : DB) :
    (touchWorkspace wsId ts db).workspaces
      = db.workspaces.map (fun w => if w.id == wsId then { w with updated_at := some ts } else w) := rfl

theorem insertGroupsGo_workspaces (wsId : Nat) (cat : String)
    (payload : List (String × List String)) (k : Nat) (db : DB) :
    (insertGroupsGo wsId cat payload k db).workspaces = db.workspaces := by
  rw [insertGroupsGo_eq]

theorem deleteGroups_workspaces (wsId : Nat) (cat : String) (db : DB) :
    (deleteGroups wsId cat db).workspaces = db.workspaces := rfl

/-- C5 (amended): the objective-save transaction and a successful record
addition both set the workspace's `updated_at` to the mutation timestamp
(via the `UPDATE workspaces` statement); the record-deletion handler,
however, leaves the `workspaces` table — and hence `updated_at` —
completely unchanged. -/
theorem c5_touch_amended :
    (∀ (wsId : Nat) (cat td tg : String) (payload : List (String × List String)) (ts : Int) (db : DB),
      (saveObjectiveTx wsId cat td tg payload ts db).workspaces
        = db.workspaces.map (fun w => if w.id == wsId then { w with updated_at := some ts } else w))
    ∧ (∀ (wsId : Nat) (cat0 : String) (td0 tt0 e0 : Option String) (today : String)
        (ts : Int) (db db' : DB),
        recordsAddPost wsId cat0 td0 tt0 e0 today ts db = (SaveResult.ok, db') →
        db'.workspaces
          = db.workspaces.map (fun w => if w.id == wsId then { w with updated_at := some ts } else w))
    ∧ (∀ (wsId : Nat) (cat0 : String) (recId : Nat) (db : DB),
        (recordsDeletePost wsId cat0 recId db).workspaces = db.workspaces) := by
  refine ⟨?_, ?_, ?_⟩
  · intro wsId cat td tg payload ts db
    show (touchWorkspace wsId ts _).workspaces = _
    rw [touchWorkspace_workspaces, insertGroupsGo_workspaces, deleteGroups_workspaces,
      upsertObjective_workspaces]
  · intro wsId cat0 td0 tt0 e0 today ts db db' h
    simp only [recordsAddPost] at h
    by_cases hcond : strTrim (tt0.getD "") = ""
    · rw [if_pos hcond] at h
      exact absurd (congrArg Prod.fst h) (by simp)
    · rw [if_neg hcond, Prod.mk.injEq] at h
      obtain ⟨-, h2⟩ := h
      rw [← h2, touchWorkspace_workspaces]
  · intro wsId cat0 recId db
    rfl

/-- Database with one workspace (`updated_at = 100`) owning one record. -/
def exDelDB : DB :=
  ⟨2, 1, 1, 2, [⟨1, "c", 0, some 100, none, none⟩], [], [], [],
   [⟨1, 1, "定向", "2024-01-01", "10:00-12:00", "", 50⟩]⟩

/-- C5 (counterexample): deleting the record is a mutation to a Record of
the workspace (the record disappears), yet the workspace row — in
particular its `updated_at`, still `100` — is untouched; the claim
demands `updated_at` be set to the time of this mutation, but the
delete branch of the handler contains no workspace update at all. -/
theorem c5_counterexample_delete_no_touch :
    (recordsDeletePost 1 "定向" 1 exDelDB).records = []
    ∧ (recordsDeletePost 1 "定向" 1 exDelDB).workspaces = [⟨1, "c", 0, some 100, none, none⟩] := by
  decide

/-- Database with one workspace (`updated_at = none`) and nothing else. -/
def exAddDB : DB := ⟨2, 1, 1, 1, [⟨1, "c", 0, none, none, none⟩], [], [], [], []⟩

theorem c5_witness :
    (recordsAddPost 1 "定向" none (some "14:00-16:00") none "2024-01-01" 200 exAddDB).2.workspaces
      = [⟨1, "c", 0, some 200, none, none⟩] := by
  have hpair : recordsAddPost 1 "定向" none (some "14:00-16:00") none "2024-01-01" 200 exAddDB
      = (SaveResult.ok,
         (recordsAddPost 1 "定向" none (some "14:00-16:00") none "2024-01-01" 200 exAddDB).2) := by
    decide
  have h2 := c5_touch_amended.2.1 1 "定向" none (some "14:00-16:00") none "2024-01-01" 200 exAddDB
    (recordsAddPost 1 "定向" none (some "14:00-16:00") none "2024-01-01" 200 exAddDB).2 hpair
  rw [h2]
  decide

/-! ## C6: validation and blank filtering -/

/-- C6: the `objectives` POST handler (1) rejects with the
"at least one long-term goal" error and no mutation when no group index
is found in the payload, (2) rejects with the "not all blank" error and
no mutation when every long-term text is blank after trimming (empty
surviving payload), (3) keeps exactly the groups whose trimmed long-term
text is non-blank — a blank group disappears together with its
short-term items, which are never consulted again — and (4) every
surviving group has a non-blank text and only non-blank (trimmed)
short-term items. -/
theorem c6_validation_blank_filtering (f : Form) (wsId : Nat) (cat0 today : String)
    (ts : Int) (db : DB) :
    (parseGroupIdxs f = [] →
      objectivesPost f wsId cat0 today ts db = (SaveResult.err "至少需要一個長期目標。", db))
    ∧ (parseGroupIdxs f ≠ [] → groupsPayload f = [] →
      objectivesPost f wsId cat0 today ts db = (SaveResult.err "長期目標不可全空白。", db))
    ∧ groupsPayload f
        = ((parseGroupIdxs f).filter (fun i => !(decide (ltTextAt f i = "")))).map
            (fun i => (ltTextAt f i, stItemsAt f i))
    ∧ (∀ p ∈ groupsPayload f, ¬ p.1 = "" ∧ ∀ s ∈ p.2, ¬ s = "") := by
  have hc3 : groupsPayload f
      = ((parseGroupIdxs f).filter (fun i => !(decide (ltTextAt f i = "")))).map
          (fun i => (ltTextAt f i, stItemsAt f i)) :=
    filterMap_if_eq_filter_map (parseGroupIdxs f) (fun i => ltTextAt f i = "")
      (fun i => (ltTextAt f i, stItemsAt f i))
  refine ⟨?_, ?_, hc3, ?_⟩
  · intro hi
    simp [objectivesPost, hi]
  · intro hi hp
    simp [objectivesPost, hi, hp]
  · intro p hp
    rw [hc3] at hp
    obtain ⟨i, hifil, hgi⟩ := List.mem_map.mp hp
    have hlt : (!(decide (ltTextAt f i = ""))) = true := (List.mem_filter.mp hifil).2
    constructor
    · rw [← hgi]
      simpa using hlt
    · intro s hs
      rw [← hgi] at hs
      simp only [stItemsAt, List.mem_filterMap] at hs
      obtain ⟨s0, _, heq⟩ := hs
      by_cases ht : strTrim s0 = ""
      · simp [ht] at heq
      · rw [if_neg ht] at heq
        have := Option.some.inj heq
        exact fun h' => ht (this.trans h')

/-! ## C10: default seeding of a freshly created workspace -/

theorem any_eq_false_of {α : Type} {p : α → Bool} {l : List α}
    (h : ∀ x ∈ l, p x = false) : l.any p = false := by
  induction l with
  | nil => rfl
  | cons x xs ih =>
    simp only [List.any_cons, h x (by simp), Bool.false_or]
    exact ih (fun y hy => h y (by simp [hy]))

theorem sortBy_singleton {α : Type} (le : α → α → Bool) (x : α) : sortBy le [x] = [x] := rfl

theorem seedCategory_eq (wsId : Nat) (cat today : String) (db : DB)
    (h : (db.objectives.any (fun o => o.workspace_id == wsId && o.category == cat)) = false) :
    seedCategory wsId cat today db
      = { db with
          groupSeq := db.groupSeq + 1,
          objectives := db.objectives ++ [⟨wsId, cat, today, ""⟩],
          long_term_groups := db.long_term_groups ++
            [⟨db.groupSeq, wsId, cat, "感官知覺/動作能力", 1⟩] } := by
  unfold seedCategory
  rw [h]
  simp

theorem filter_eq_nil_of_false {α : Type} {p : α → Bool} {l : List α}
    (h : ∀ x ∈ l, p x = false) : l.filter p = [] := by
  induction l with
  | nil => rfl
  | cons x xs ih =>
    simp only [List.filter, h x (by simp)]
    exact ih (fun y hy => h y (by simp [hy]))

/-- C10: a workspace created through the student submission flow is
seeded, for each of the two categories, with an objectives row whose
`target_date` is today and whose teaching goal is empty, and with a
single long-term group "感官知覺/動作能力" of ordinal 1 — so the fresh
workspace's goal tree is never empty. The hypotheses say the database is
well-formed: no stored row references a workspace id at or above the
`AUTOINCREMENT` counter. -/
theorem c10_seed_defaults (code sn ag : String) (ts : Int) (today : String) (db : DB)
    (hobj : ∀ o ∈ db.objectives, o.workspace_id < db.wsSeq)
    (hgrp : ∀ g ∈ db.long_term_groups, g.workspace_id < db.wsSeq) :
    getObjectives (studentCreateFlow code sn ag ts today db).2
        (studentCreateFlow code sn ag ts today db).1 "定向"
      = some ⟨db.wsSeq, "定向", today, ""⟩
    ∧ getObjectives (studentCreateFlow code sn ag ts today db).2
        (studentCreateFlow code sn ag ts today db).1 "生活"
      = some ⟨db.wsSeq, "生活", today, ""⟩
    ∧ (getLongTermGroups (studentCreateFlow code sn ag ts today db).2
        (studentCreateFlow code sn ag ts today db).1 "定向").map
          (fun g => (g.long_term_goal, g.ord))
      = [("感官知覺/動作能力", 1)]
    ∧ (getLongTermGroups (studentCreateFlow code sn ag ts today db).2
        (studentCreateFlow code sn ag ts today db).1 "生活").map
          (fun g => (g.long_term_goal, g.ord))
      = [("感官知覺/動作能力", 1)] := by
  have hne : ∀ o ∈ db.objectives, ∀ c : String,
      (o.workspace_id == db.wsSeq && o.category == c) = false := by
    intro o ho c
    have := hobj o ho
    have h1 : (o.workspace_id == db.wsSeq) = false := by
      simp only [beq_eq_false_iff_ne, ne_eq]
      omega
    simp [h1]
  have hany1 : (db.objectives.any
      (fun o => o.workspace_id == db.wsSeq && o.category == "定向")) = false :=
    any_eq_false_of (fun o ho => hne o ho "定向")
  have hbeqD : (("定向" : String) == "生活") = false := by decide
  have hany2 : ((db.objectives ++ [(⟨db.wsSeq, "定向", today, ""⟩ : Objective)]).any
      (fun o => o.workspace_id == db.wsSeq && o.category == "生活")) = false := by
    rw [List.any_append]
    rw [any_eq_false_of (fun o ho => hne o ho "生活")]
    simp [hbeqD]
  have h1 := seedCategory_eq db.wsSeq "定向" today (createWorkspace code sn ag ts db).2 hany1
  have h2cond : (((seedCategory db.wsSeq "定向" today
      (createWorkspace code sn ag ts db).2).objectives).any
      (fun o => o.workspace_id == db.wsSeq && o.category == "生活")) = false := by
    rw [h1]
    exact hany2
  have h2 := seedCategory_eq db.wsSeq "生活" today
    (seedCategory db.wsSeq "定向" today (createWorkspace code sn ag ts db).2) h2cond
  have hflow : (studentCreateFlow code sn ag ts today db).2
      = { db with
          wsSeq := db.wsSeq + 1,
          groupSeq := db.groupSeq + 2,
          workspaces := db.workspaces ++ [⟨db.wsSeq, code, ts, some ts, some sn, some ag⟩],
          objectives := db.objectives ++ [⟨db.wsSeq, "定向", today, ""⟩, ⟨db.wsSeq, "生活", today, ""⟩],
          long_term_groups := db.long_term_groups ++
            [⟨db.groupSeq, db.wsSeq, "定向", "感官知覺/動作能力", 1⟩,
             ⟨db.groupSeq + 1, db.wsSeq, "生活", "感官知覺/動作能力", 1⟩] } := by
    show seedCategory db.wsSeq "生活" today
      (seedCategory db.wsSeq "定向" today (createWorkspace code sn ag ts db).2) = _
    rw [h2, h1]
    simp only [createWorkspace, DB.mk.injEq, List.append_assoc, List.singleton_append,
      List.cons_append, List.nil_append]
  have hfst : (studentCreateFlow code sn ag ts today db).1 = db.wsSeq := rfl
  have hcat1 : normCat "定向" = "定向" := by decide
  have hcat2 : normCat "生活" = "生活" := by decide
  have hgne : ∀ g ∈ db.long_term_groups, ∀ c : String,
      (g.workspace_id == db.wsSeq && g.category == c) = false := by
    intro g hg c
    have := hgrp g hg
    have h1 : (g.workspace_id == db.wsSeq) = false := by
      simp only [beq_eq_false_iff_ne, ne_eq]
      omega
    simp [h1]
  have hbeqA : (("定向" : String) == "定向") = true := by decide
  have hbeqB : (("生活" : String) == "定向") = false := by decide
  have hbeqC : (("生活" : String) == "生活") = true := by decide
  have hbeqD : (("定向" : String) == "生活") = false := by decide
  refine ⟨?_, ?_, ?_, ?_⟩
  · simp only [getObjectives, hflow, hfst, hcat1]
    rw [find?_append_of_none (fun o ho => hne o ho "定向")]
    simp [List.find?, hbeqA]
  · simp only [getObjectives, hflow, hfst, hcat2]
    rw [find?_append_of_none (fun o ho => hne o ho "生活")]
    simp [List.find?, hbeqC, hbeqD]
  · simp only [getLongTermGroups, hflow, hfst, hcat1, List.filter_append]
    rw [filter_eq_nil_of_false (fun g hg => hgne g hg "定向")]
    simp [List.filter, hbeqA, hbeqB, sortBy, insertSorted]
  · simp only [getLongTermGroups, hflow, hfst, hcat2, List.filter_append]
    rw [filter_eq_nil_of_false (fun g hg => hgne g hg "生活")]
    simp [List.filter, hbeqC, hbeqD, sortBy, insertSorted]

/-! ## C1: reconciliation ordering -/

theorem insertGroupsGo_groups (wsId : Nat) (cat : String)
    (payload : List (String × List String)) (k : Nat) (db : DB) :
    (insertGroupsGo wsId cat payload k db).long_term_groups
      = db.long_term_groups ++ newGroups wsId cat db.groupSeq k payload := by
  rw [insertGroupsGo_eq]

theorem insertGroupsGo_shorts (wsId : Nat) (cat : String)
    (payload : List (String × List String)) (k : Nat) (db : DB) :
    (insertGroupsGo wsId cat payload k db).short_terms
      = db.short_terms ++ newShorts db.groupSeq db.stSeq payload := by
  rw [insertGroupsGo_eq]

theorem deleteGroups_groups (wsId : Nat) (cat : String) (db : DB) :
    (deleteGroups wsId cat db).long_term_groups
      = db.long_term_groups.filter (fun g => !(g.workspace_id == wsId && g.category == cat)) := rfl

theorem deleteGroups_groupSeq (wsId : Nat) (cat : String) (db : DB) :
    (deleteGroups wsId cat db).groupSeq = db.groupSeq := rfl

theorem deleteGroups_stSeq (wsId : Nat) (cat : String) (db : DB) :
    (deleteGroups wsId cat db).stSeq = db.stSeq := rfl

theorem saveObjectiveTx_groups (wsId : Nat) (cat td tg : String)
    (payload : List (String × List String)) (ts : Int) (db : DB) :
    (saveObjectiveTx wsId cat td tg payload ts db).long_term_groups
      = db.long_term_groups.filter (fun g => !(g.workspace_id == wsId && g.category == cat))
        ++ newGroups wsId cat db.groupSeq 1 payload := by
  have e1 : (saveObjectiveTx wsId cat td tg payload ts db).long_term_groups
      = (insertGroupsGo wsId cat payload 1
          (deleteGroups wsId cat (upsertObjective wsId cat td tg db))).long_term_groups := rfl
  rw [e1, insertGroupsGo_groups, deleteGroups_groups, deleteGroups_groupSeq,
    upsertObjective_groups, upsertObjective_groupSeq]

theorem saveObjectiveTx_shorts (wsId : Nat) (cat td tg : String)
    (payload : List (String × List String)) (ts : Int) (db : DB) :
    (saveObjectiveTx wsId cat td tg payload ts db).short_terms
      = (deleteGroups wsId cat (upsertObjective wsId cat td tg db)).short_terms
        ++ newShorts db.groupSeq db.stSeq payload := by
  have e2 : (saveObjectiveTx wsId cat td tg payload ts db).short_terms
      = (insertGroupsGo wsId cat payload 1
          (deleteGroups wsId cat (upsertObjective wsId cat td tg db))).short_terms := rfl
  rw [e2, insertGroupsGo_shorts, deleteGroups_groupSeq, deleteGroups_stSeq,
    upsertObjective_groupSeq, upsertObjective_stSeq]

theorem deleteUpsert_shorts_lt (wsId : Nat) (cat td tg : String) (db : DB)
    (hfresh : ∀ st ∈ db.short_terms, st.group_id < db.groupSeq) :
    ∀ st ∈ (deleteGroups wsId cat (upsertObjective wsId cat td tg db)).short_terms,
      st.group_id < db.groupSeq := by
  intro st hst
  have h1 : st ∈ (upsertObjective wsId cat td tg db).short_terms :=
    (List.mem_filter.mp hst).1
  rw [upsertObjective_shorts] at h1
  exact hfresh st h1

theorem newGroups_filter_self (wsId : Nat) (cat : String) :
    ∀ (payload : List (String × List String)) (gseq k : Nat),
    (newGroups wsId cat gseq k payload).filter
        (fun g => g.workspace_id == wsId && g.category == cat)
      = newGroups wsId cat gseq k payload := by
  intro payload
  induction payload with
  | nil => intro gseq k; rfl
  | cons hd rest ih =>
    intro gseq k
    obtain ⟨lt, sts⟩ := hd
    simp [newGroups, List.filter, ih (gseq+1) (k+1)]

theorem newGroups_map_textord (wsId : Nat) (cat : String) :
    ∀ (payload : List (String × List String)) (gseq k : Nat),
    (newGroups wsId cat gseq k payload).map (fun g => (g.long_term_goal, g.ord))
      = withOrds (payload.map Prod.fst) k := by
  intro payload
  induction payload with
  | nil => intro gseq k; rfl
  | cons hd rest ih =>
    intro gseq k
    obtain ⟨lt, sts⟩ := hd
    simp [newGroups, withOrds, ih (gseq+1) (k+1)]

theorem shortsRow_filter_self (gid : Nat) :
    ∀ (sts : List String) (sseq j : Nat),
    (shortsRow gid sseq sts j).filter (fun st => st.group_id == gid)
      = shortsRow gid sseq sts j := by
  intro sts
  induction sts with
  | nil => intro sseq j; rfl
  | cons item rest ih =>
    intro sseq j
    simp [shortsRow, List.filter, ih (sseq+1) (j+1)]

theorem shortsRow_filter_ne {gid g : Nat} (hne : gid ≠ g) :
    ∀ (sts : List String) (sseq j : Nat),
    (shortsRow gid sseq sts j).filter (fun st => st.group_id == g) = [] := by
  intro sts
  induction sts with
  | nil => intro sseq j; rfl
  | cons item rest ih =>
    intro sseq j
    have hb : ((⟨sseq, gid, item, j⟩ : ShortTerm).group_id == g) = false := by
      simp only [beq_eq_false_iff_ne, ne_eq]
      exact hne
    simp [shortsRow, List.filter, hb, ih (sseq+1) (j+1)]

theorem shortsRow_map (gid : Nat) :
    ∀ (sts : List String) (sseq j : Nat),
    (shortsRow gid sseq sts j).map (fun st => (st.item, st.ord)) = withOrds sts j := by
  intro sts
  induction sts with
  | nil => intro sseq j; rfl
  | cons item rest ih =>
    intro sseq j
    simp [shortsRow, withOrds, ih (sseq+1) (j+1)]

theorem shortsRow_group_id (gid : Nat) :
    ∀ (sts : List String) (sseq j : Nat) (st : ShortTerm),
    st ∈ shortsRow gid sseq sts j → st.group_id = gid := by
  intro sts
  induction sts with
  | nil => intro sseq j st h; cases h
  | cons item rest ih =>
    intro sseq j st h
    rcases List.mem_cons.mp h with h | h
    · rw [h]
    · exact ih (sseq+1) (j+1) st h

theorem newShorts_filter_lt :
    ∀ (payload : List (String × List String)) (gseq sseq g : Nat), g < gseq →
    (newShorts gseq sseq payload).filter (fun st => st.group_id == g) = [] := by
  intro payload
  induction payload with
  | nil => intro gseq sseq g _; rfl
  | cons hd rest ih =>
    intro gseq sseq g hg
    obtain ⟨lt, sts⟩ := hd
    simp only [newShorts, List.filter_append]
    rw [shortsRow_filter_ne (by omega) sts sseq 1, ih (gseq+1) (sseq + sts.length) g (by omega)]
    rfl

theorem forall₂_payload_newGroups (wsId : Nat) (cat : String) :
    ∀ (payload : List (String × List String)) (gseq sseq k : Nat) (base : List ShortTerm),
    (∀ st ∈ base, st.group_id < gseq) →
    List.Forall₂ (fun (p : String × List String) (g : LongTermGroup) =>
        g.long_term_goal = p.1 ∧
        (base.filter (fun st => st.group_id == g.id)
          ++ (newShorts gseq sseq payload).filter (fun st => st.group_id == g.id)).map
            (fun st => (st.item, st.ord)) = withOrds p.2 1)
      payload (newGroups wsId cat gseq k payload) := by
  intro payload
  induction payload with
  | nil => intro gseq sseq k base _; exact List.Forall₂.nil
  | cons hd rest ih =>
    intro gseq sseq k base hbase
    obtain ⟨lt, sts⟩ := hd
    have hbase' : ∀ st ∈ base ++ shortsRow gseq sseq sts 1, st.group_id < gseq + 1 := by
      intro st hst
      rcases List.mem_append.mp hst with h | h
      · have := hbase st h; omega
      · have := shortsRow_group_id gseq sts sseq 1 st h; omega
    have htail := ih (gseq+1) (sseq + sts.length) (k+1) (base ++ shortsRow gseq sseq sts 1) hbase'
    simp only [List.filter_append, List.append_assoc] at htail
    show List.Forall₂ _ ((lt, sts) :: rest) (newGroups wsId cat gseq k ((lt, sts) :: rest))
    simp only [newGroups, newShorts, List.filter_append, List.append_assoc]
    refine List.Forall₂.cons ⟨rfl, ?_⟩ htail
    show ((base.filter (fun st => st.group_id == gseq)
        ++ ((shortsRow gseq sseq sts 1).filter (fun st => st.group_id == gseq)
            ++ (newShorts (gseq+1) (sseq + sts.length) rest).filter
                (fun st => st.group_id == gseq))).map (fun st => (st.item, st.ord)))
      = withOrds sts 1
    rw [filter_eq_nil_of_lt gseq hbase (Nat.le_refl gseq), shortsRow_filter_self,
      newShorts_filter_lt rest (gseq+1) (sseq + sts.length) gseq (by omega)]
    simp [shortsRow_map]

/-- C1: a successful `saveObjective` submission persists exactly the
surviving groups of `groups_payload` — the payload is read along the
deduplicated, ascending-sorted parsed indices (`parseGroupIdxs`), which
are themselves never stored — with the group texts appearing in that
sorted-index order carrying `ord = 1..N`, and, pairing the payload with
the persisted groups position by position, each group's surviving
short-term items persisted in submitted order with `ord = 1..M`.
The freshness hypothesis is the `AUTOINCREMENT` invariant on the
short-terms table. -/
theorem c1_reconciler_sorted_order (f : Form) (wsId : Nat) (cat0 today : String)
    (ts : Int) (db : DB)
    (hne : groupsPayload f ≠ [])
    (hfresh : ∀ st ∈ db.short_terms, st.group_id < db.groupSeq) :
    (objectivesPost f wsId cat0 today ts db).1 = SaveResult.ok
    ∧ (((objectivesPost f wsId cat0 today ts db).2.long_term_groups.filter
          (fun g => g.workspace_id == wsId && g.category == normCat cat0)).map
          (fun g => (g.long_term_goal, g.ord)))
        = withOrds ((groupsPayload f).map Prod.fst) 1
    ∧ List.Forall₂ (fun (p : String × List String) (g : LongTermGroup) =>
          g.long_term_goal = p.1 ∧
          (((objectivesPost f wsId cat0 today ts db).2.short_terms.filter
              (fun st => st.group_id == g.id)).map (fun st => (st.item, st.ord)))
            = withOrds p.2 1)
        (groupsPayload f)
        ((objectivesPost f wsId cat0 today ts db).2.long_term_groups.filter
          (fun g => g.workspace_id == wsId && g.category == normCat cat0)) := by
  have hidx : ¬ parseGroupIdxs f = [] := by
    intro h0
    apply hne
    unfold groupsPayload
    rw [h0]
    rfl
  have hpost : objectivesPost f wsId cat0 today ts db
      = (SaveResult.ok, saveObjectiveTx wsId (normCat cat0)
          (strTrim (match f.get "target_date" with
            | none => today
            | some s => if s = "" then today else s))
          (strTrim ((f.get "teaching_goal").getD ""))
          (groupsPayload f) ts db) := by
    simp only [objectivesPost, if_neg hidx, if_neg hne]
  refine ⟨by rw [hpost], ?_, ?_⟩
  · simp only [hpost]
    rw [saveObjectiveTx_groups, List.filter_append, filter_not_filter,
      newGroups_filter_self, List.nil_append, newGroups_map_textord]
  · simp only [hpost, saveObjectiveTx_groups, saveObjectiveTx_shorts, List.filter_append,
      filter_not_filter, newGroups_filter_self, List.nil_append]
    exact forall₂_payload_newGroups wsId (normCat cat0) (groupsPayload f)
      db.groupSeq db.stSeq 1 _
      (deleteUpsert_shorts_lt wsId (normCat cat0) _ _ db hfresh)

/-! ## Schema evolution model (`init_db` / `migrate_objectives_table`)

The migration operates on table *shapes* as well as rows, so it gets its
own state model: each table is `Option` (absent vs present), the
workspace/category columns added by the `ALTER TABLE ... ADD COLUMN`
statements are presence flags, and the `objectives` table carries its
full column descriptor list (name and primary-key rank, exactly what
`PRAGMA table_info` reports and the migration inspects). Indexes are
presence flags. `try/except OperationalError: pass` around an `ALTER` or
`CREATE INDEX` makes the statement a no-op when its object already
exists, which is how the flag updates below behave. -/

namespace Schema

/-- One column of `PRAGMA table_info(objectives)`: name and pk rank
(`0` = not part of the primary key). -/
structure ObjCol where
  name : String
  pk : Nat
deriving DecidableEq, Repr

/-- A row of an `objectives` table; `category` is `none` when the value
is NULL or the column absent. -/
structure ObjRow where
  workspace_id : Nat
  category : Option String
  target_date : String
  teaching_goal : String
deriving DecidableEq, Repr

/-- An `objectives` table: column descriptors plus rows. -/
structure ObjTable where
  cols : List ObjCol
  rows : List ObjRow
deriving DecidableEq, Repr

/-- A row of the `workspaces` table (nullable columns as `Option`). -/
structure WRow where
  id : Nat
  code : String
  created_at : String
  student_name : Option String
  agency : Option String
  updated_at : Option String
deriving DecidableEq, Repr

/-- The `workspaces` table: presence flags for the three columns the
migration may add, plus rows. -/
structure WTable where
  hasStudentName : Bool
  hasAgency : Bool
  hasUpdatedAt : Bool
  rows : List WRow
deriving DecidableEq, Repr

/-- A row of `long_term_groups` (the migration only touches `category`). -/
structure GRow where
  id : Nat
  workspace_id : Nat
  long_term_goal : String
  ord : Nat
  category : Option String
deriving DecidableEq, Repr

/-- The `long_term_groups` table with its `category`-column flag. -/
structure GTable where
  hasCategory : Bool
  rows : List GRow
deriving DecidableEq, Repr

/-- A row of `records` (the migration only touches `category`). -/
structure RRow where
  id : Nat
  workspace_id : Nat
  teach_date : String
  teach_time : String
  effectiveness : String
  created_at : String
  category : Option String
deriving DecidableEq, Repr

/-- The `records` table with its `category`-column flag. -/
structure RTable where
  hasCategory : Bool
  rows : List RRow
deriving DecidableEq, Repr

/-- The whole schema-level database state. -/
structure SDB where
  workspaces : Option WTable
  objectives : Option ObjTable
  long_term_groups : Option GTable
  short_terms : Bool
  records : Option RTable
  uxStudentAgency : Bool
  ixObjectivesWsCat : Bool
  ixGroupsWsCat : Bool
  ixRecordsWsCat : Bool
deriving DecidableEq, Repr

/-- Columns of the composite-key `objectives` table the `CREATE TABLE`
statements produce: primary key `(workspace_id, category)`. -/
def freshObjCols : List ObjCol :=
  [⟨"workspace_id", 1⟩, ⟨"category", 2⟩, ⟨"target_date", 0⟩, ⟨"teaching_goal", 0⟩]

/-- Step 1 of `init_db`: `CREATE TABLE IF NOT EXISTS` for the five
tables — existing tables are untouched, absent ones are created empty in
the new shape (the fresh `workspaces` shape has only id/code/created_at;
fresh group/record tables have the `category` column). -/
def createTables (s : SDB) : SDB :=
  { s with
    workspaces := some (s.workspaces.getD ⟨false, false, false, []⟩),
    objectives := some (s.objectives.getD ⟨freshObjCols, []⟩),
    long_term_groups := some (s.long_term_groups.getD ⟨true, []⟩),
    short_terms := true,
    records := some (s.records.getD ⟨true, []⟩) }

/-- Step 2: the three swallowed `ALTER TABLE workspaces ADD COLUMN`
statements — afterwards the columns exist, whether or not they did. -/
def addWorkspaceCols (s : SDB) : SDB :=
  let w := s.workspaces.map
    (fun t => { t with hasStudentName := true, hasAgency := true, hasUpdatedAt := true })
  { s with workspaces := w }

/-- Step 3: the swallowed `ADD COLUMN category` statements on
`long_term_groups` and `records`. -/
def addCategoryCols (s : SDB) : SDB :=
  { s with long_term_groups := s.long_term_groups.map (fun t => { t with hasCategory := true }),
           records := s.records.map (fun t => { t with hasCategory := true }) }

/-- The per-row effect of the step-4 backfill
(`SET category='定向' WHERE category IS NULL OR category=''`). -/
def backfillCat (c : Option String) : Option String :=
  match c with
  | none => some "定向"
  | some s => if s = "" then some "定向" else some s

/-- Step 4: backfill the `category` of pre-existing group/record rows. -/
def backfill (s : SDB) : SDB :=
  let g := s.long_term_groups.map
    (fun t => { t with rows := t.rows.map (fun r => { r with category := backfillCat r.category }) })
  let r := s.records.map
    (fun t => { t with rows := t.rows.map (fun r => { r with category := backfillCat r.category }) })
  { s with long_term_groups := g, records := r }

/-- Step 5: the swallowed `CREATE UNIQUE INDEX ux_student_agency`. -/
def addUxIndex (s : SDB) : SDB := { s with uxStudentAgency := true }

/-- `pk_count` of `migrate_objectives_table`: number of columns with a
positive primary-key rank. -/
def pkCount (t : ObjTable) : Nat := (t.cols.filter (fun c => 0 < c.pk)).length

/-- `INSERT OR REPLACE` of one row into the accumulated new table:
a row with the same `(workspace_id, category)` key is replaced (the
replacement lands at the end, as a fresh rowid does). -/
def insertOrReplace (acc : List ObjRow) (r : ObjRow) : List ObjRow :=
  acc.filter (fun x => !(x.workspace_id == r.workspace_id && x.category == r.category)) ++ [r]

/-- `INSERT OR REPLACE ... SELECT`: fold the selected rows into the
freshly created empty table. -/
def insertOrReplaceAll (rows : List ObjRow) : List ObjRow :=
  rows.foldl insertOrReplace []

/-- The table-level body of `migrate_objectives_table`, given the ids of
the existing workspace rows (for the `JOIN workspaces`): skip when the
primary key is already composite, when no `workspace_id` column with pk
rank 1 exists, or when the legacy `target_date`/`teaching_goal` columns
are missing; otherwise build the composite-key table from the legacy
rows that join to a workspace, defaulting `category` to `定向` when the
legacy table has no such column, and swap it into place. -/
def migrateObj (wsIds : List Nat) (o : Option ObjTable) : Option ObjTable :=
  match o with
  | none => none
  | some t =>
    if 2 ≤ pkCount t then some t
    else
      match t.cols.find? (fun c => c.name == "workspace_id") with
      | none => some t
      | some wsCol =>
        if wsCol.pk ≠ 1 then some t
        else if ¬ (t.cols.any (fun c => c.name == "target_date") = true)
            ∨ ¬ (t.cols.any (fun c => c.name == "teaching_goal") = true) then some t
        else
          let hasCat := t.cols.any (fun c => c.name == "category")
          let copied := (t.rows.filter (fun r => wsIds.contains r.workspace_id)).map
            (fun r => if hasCat then r else { r with category := some "定向" })
          some ⟨freshObjCols, insertOrReplaceAll copied⟩

/-- Step 6, `migrate_objectives_table`: do nothing when the `workspaces`
table is absent (guard 0 of the source), otherwise transform the
`objectives` table (guard 1: an absent table stays absent). -/
def migrate (s : SDB) : SDB :=
  match s.workspaces with
  | none => s
  | some w => { s with objectives := migrateObj (w.rows.map (fun r => r.id)) s.objectives }

/-- Step 7: the three `CREATE INDEX IF NOT EXISTS` statements. -/
def addIndexes (s : SDB) : SDB :=
  { s with ixObjectivesWsCat := true, ixGroupsWsCat := true, ixRecordsWsCat := true }

/-- `init_db`: the seven schema-evolution steps in source order. -/
def initDb (s : SDB) : SDB :=
  addIndexes (migrate (addUxIndex (backfill (addCategoryCols (addWorkspaceCols (createTables s))))))

end Schema

namespace Schema

theorem pkCount_fresh (rows : List ObjRow) : pkCount ⟨freshObjCols, rows⟩ = 2 := rfl

theorem migrateObj_skip_pk {t : ObjTable} (h : 2 ≤ pkCount t) (I : List Nat) :
    migrateObj I (some t) = some t := by
  simp only [migrateObj]
  rw [if_pos h]

theorem migrateObj_skip_nofind {t : ObjTable}
    (hf : t.cols.find? (fun c => c.name == "workspace_id") = none) (I : List Nat) :
    migrateObj I (some t) = some t := by
  simp only [migrateObj, hf]
  split <;> rfl

theorem migrateObj_skip_pkrank {t : ObjTable} {wsCol : ObjCol}
    (hf : t.cols.find? (fun c => c.name == "workspace_id") = some wsCol)
    (hpk : wsCol.pk ≠ 1) (I : List Nat) :
    migrateObj I (some t) = some t := by
  simp only [migrateObj, hf]
  rw [if_pos hpk]
  split <;> rfl

theorem migrateObj_skip_cols {t : ObjTable} {wsCol : ObjCol}
    (hf : t.cols.find? (fun c => c.name == "workspace_id") = some wsCol)
    (hpk : wsCol.pk = 1)
    (hcols : ¬ (t.cols.any (fun c => c.name == "target_date") = true)
      ∨ ¬ (t.cols.any (fun c => c.name == "teaching_goal") = true)) (I : List Nat) :
    migrateObj I (some t) = some t := by
  simp only [migrateObj, hf]
  rw [if_neg (show ¬ wsCol.pk ≠ 1 from fun hh => hh hpk), if_pos hcols]
  split <;> rfl

theorem migrateObj_swap {t : ObjTable} {wsCol : ObjCol}
    (h1 : ¬ 2 ≤ pkCount t)
    (hf : t.cols.find? (fun c => c.name == "workspace_id") = some wsCol)
    (hpk : wsCol.pk = 1)
    (htd : t.cols.any (fun c => c.name == "target_date") = true)
    (htg : t.cols.any (fun c => c.name == "teaching_goal") = true)
    (I : List Nat) :
    migrateObj I (some t)
      = some ⟨freshObjCols, insertOrReplaceAll
          ((t.rows.filter (fun r => I.contains r.workspace_id)).map
            (fun r => if t.cols.any (fun c => c.name == "category") = true then r
                      else { r with category := some "定向" }))⟩ := by
  simp only [migrateObj, hf]
  rw [if_neg h1, if_neg (show ¬ wsCol.pk ≠ 1 from fun hh => hh hpk),
    if_neg (show ¬ (¬ (t.cols.any (fun c => c.name == "target_date") = true)
        ∨ ¬ (t.cols.any (fun c => c.name == "teaching_goal") = true)) from by simp [htd, htg])]

theorem migrateObj_idem (I I' : List Nat) (o : Option ObjTable) :
    migrateObj I' (migrateObj I o) = migrateObj I o := by
  match o with
  | none => rfl
  | some t =>
    by_cases h1 : 2 ≤ pkCount t
    · rw [migrateObj_skip_pk h1 I, migrateObj_skip_pk h1 I']
    · cases hf : t.cols.find? (fun c => c.name == "workspace_id") with
      | none => rw [migrateObj_skip_nofind hf I, migrateObj_skip_nofind hf I']
      | some wsCol =>
        by_cases hpk : wsCol.pk = 1
        · by_cases htd : t.cols.any (fun c => c.name == "target_date") = true
          · by_cases htg : t.cols.any (fun c => c.name == "teaching_goal") = true
            · rw [migrateObj_swap h1 hf hpk htd htg I]
              exact migrateObj_skip_pk (by rw [pkCount_fresh]) I'
            · have hcols : ¬ (t.cols.any (fun c => c.name == "target_date") = true)
                  ∨ ¬ (t.cols.any (fun c => c.name == "teaching_goal") = true) := Or.inr htg
              rw [migrateObj_skip_cols hf hpk hcols I, migrateObj_skip_cols hf hpk hcols I']
          · have hcols : ¬ (t.cols.any (fun c => c.name == "target_date") = true)
                ∨ ¬ (t.cols.any (fun c => c.name == "teaching_goal") = true) := Or.inl htd
            rw [migrateObj_skip_cols hf hpk hcols I, migrateObj_skip_cols hf hpk hcols I']
        · rw [migrateObj_skip_pkrank hf hpk I, migrateObj_skip_pkrank hf hpk I']

theorem migrateObj_isSome (I : List Nat) (t : ObjTable) :
    ∃ t', migrateObj I (some t) = some t' := by
  by_cases h1 : 2 ≤ pkCount t
  · exact ⟨t, migrateObj_skip_pk h1 I⟩
  · cases hf : t.cols.find? (fun c => c.name == "workspace_id") with
    | none => exact ⟨t, migrateObj_skip_nofind hf I⟩
    | some wsCol =>
      by_cases hpk : wsCol.pk = 1
      · by_cases htd : t.cols.any (fun c => c.name == "target_date") = true
        · by_cases htg : t.cols.any (fun c => c.name == "teaching_goal") = true
          · exact ⟨_, migrateObj_swap h1 hf hpk htd htg I⟩
          · exact ⟨t, migrateObj_skip_cols hf hpk (Or.inr htg) I⟩
        · exact ⟨t, migrateObj_skip_cols hf hpk (Or.inl htd) I⟩
      · exact ⟨t, migrateObj_skip_pkrank hf hpk I⟩

theorem backfillCat_idem (c : Option String) : backfillCat (backfillCat c) = backfillCat c := by
  match c with
  | none => decide
  | some s =>
    by_cases hs : s = ""
    · subst hs; decide
    · simp [backfillCat, hs]

/-- A state on which every `init_db` step is a no-op: all tables exist,
all added columns and indexes are in place, group/record categories are
backfilled, and the `objectives` table shape makes the swap skip. -/
structure StableState (s : SDB) : Prop where
  ws : ∃ rows, s.workspaces = some ⟨true, true, true, rows⟩
  objSome : ∃ t, s.objectives = some t
  obj : ∀ I, migrateObj I s.objectives = s.objectives
  grp : ∃ rows, s.long_term_groups = some ⟨true, rows⟩
    ∧ ∀ r ∈ rows, backfillCat r.category = r.category
  rcd : ∃ rows, s.records = some ⟨true, rows⟩
    ∧ ∀ r ∈ rows, backfillCat r.category = r.category
  st : s.short_terms = true
  ux : s.uxStudentAgency = true
  ix1 : s.ixObjectivesWsCat = true
  ix2 : s.ixGroupsWsCat = true
  ix3 : s.ixRecordsWsCat = true

theorem grow_fixed {r : GRow} (h : backfillCat r.category = r.category) :
    ({ r with category := backfillCat r.category } : GRow) = r := by
  cases r
  simp_all

theorem rrow_fixed {r : RRow} (h : backfillCat r.category = r.category) :
    ({ r with category := backfillCat r.category } : RRow) = r := by
  cases r
  simp_all

theorem createTables_fixed {s : SDB} (h : StableState s) : createTables s = s := by
  obtain ⟨rowsW, hw⟩ := h.ws
  obtain ⟨t, ho⟩ := h.objSome
  obtain ⟨rowsG, hg, -⟩ := h.grp
  obtain ⟨rowsR, hr, -⟩ := h.rcd
  have hst := h.st
  cases s
  simp_all [createTables]

theorem addWorkspaceCols_fixed {s : SDB} (h : StableState s) : addWorkspaceCols s = s := by
  obtain ⟨rowsW, hw⟩ := h.ws
  cases s
  simp_all [addWorkspaceCols]

theorem addCategoryCols_fixed {s : SDB} (h : StableState s) : addCategoryCols s = s := by
  obtain ⟨rowsG, hg, -⟩ := h.grp
  obtain ⟨rowsR, hr, -⟩ := h.rcd
  cases s
  simp_all [addCategoryCols]

theorem backfill_fixed {s : SDB} (h : StableState s) : backfill s = s := by
  obtain ⟨rowsG, hg, hgfix⟩ := h.grp
  obtain ⟨rowsR, hr, hrfix⟩ := h.rcd
  have hgmap : rowsG.map (fun r => { r with category := backfillCat r.category }) = rowsG :=
    map_eq_self_of_fixed (fun r hrr => grow_fixed (hgfix r hrr))
  have hrmap : rowsR.map (fun r => { r with category := backfillCat r.category }) = rowsR :=
    map_eq_self_of_fixed (fun r hrr => rrow_fixed (hrfix r hrr))
  cases s
  simp_all [backfill]

theorem addUxIndex_fixed {s : SDB} (h : StableState s) : addUxIndex s = s := by
  have := h.ux
  cases s
  simp_all [addUxIndex]

theorem migrate_fixed {s : SDB} (h : StableState s) : migrate s = s := by
  obtain ⟨rowsW, hw⟩ := h.ws
  simp only [migrate, hw]
  rw [h.obj, ← hw]

theorem addIndexes_fixed {s : SDB} (h : StableState s) : addIndexes s = s := by
  have h1 := h.ix1
  have h2 := h.ix2
  have h3 := h.ix3
  cases s
  simp_all [addIndexes]

theorem stable_fixed {s : SDB} (h : StableState s) : initDb s = s := by
  unfold initDb
  rw [createTables_fixed h, addWorkspaceCols_fixed h, addCategoryCols_fixed h,
    backfill_fixed h, addUxIndex_fixed h, migrate_fixed h, addIndexes_fixed h]

theorem addIndexes_workspaces (s : SDB) : (addIndexes s).workspaces = s.workspaces := rfl

theorem addIndexes_objectives (s : SDB) : (addIndexes s).objectives = s.objectives := rfl

theorem addIndexes_groups (s : SDB) : (addIndexes s).long_term_groups = s.long_term_groups := rfl

theorem addIndexes_records (s : SDB) : (addIndexes s).records = s.records := rfl

theorem addIndexes_shortTerms (s : SDB) : (addIndexes s).short_terms = s.short_terms := rfl

theorem addIndexes_ux (s : SDB) : (addIndexes s).uxStudentAgency = s.uxStudentAgency := rfl

theorem migrate_workspaces (s : SDB) : (migrate s).workspaces = s.workspaces := by
  cases hw : s.workspaces <;> simp [migrate, hw]

theorem migrate_groups (s : SDB) : (migrate s).long_term_groups = s.long_term_groups := by
  cases hw : s.workspaces <;> simp [migrate, hw]

theorem migrate_records (s : SDB) : (migrate s).records = s.records := by
  cases hw : s.workspaces <;> simp [migrate, hw]

theorem migrate_shortTerms (s : SDB) : (migrate s).short_terms = s.short_terms := by
  cases hw : s.workspaces <;> simp [migrate, hw]

theorem migrate_ux (s : SDB) : (migrate s).uxStudentAgency = s.uxStudentAgency := by
  cases hw : s.workspaces <;> simp [migrate, hw]

theorem initDb_stable (s : SDB) : StableState (initDb s) := by
  have hmig : initDb s
      = addIndexes (migrate (addUxIndex (backfill (addCategoryCols
          (addWorkspaceCols (createTables s)))))) := rfl
  have hMws : (addUxIndex (backfill (addCategoryCols (addWorkspaceCols (createTables s))))).workspaces
      = some ⟨true, true, true, (s.workspaces.getD ⟨false, false, false, []⟩).rows⟩ := rfl
  have hmigobj : (initDb s).objectives
      = migrateObj ((s.workspaces.getD ⟨false, false, false, []⟩).rows.map (fun r => r.id))
          (some (s.objectives.getD ⟨freshObjCols, []⟩)) := by
    rw [hmig, addIndexes_objectives]
    simp only [migrate, hMws]
    rfl
  obtain ⟨t', ht'⟩ := migrateObj_isSome
    ((s.workspaces.getD ⟨false, false, false, []⟩).rows.map (fun r => r.id))
    (s.objectives.getD ⟨freshObjCols, []⟩)
  refine ⟨⟨(s.workspaces.getD ⟨false, false, false, []⟩).rows, ?_⟩,
    ⟨t', ?_⟩, ?_, ?_, ?_, ?_, ?_, rfl, rfl, rfl⟩
  · rw [hmig, addIndexes_workspaces, migrate_workspaces]
    exact hMws
  · rw [hmigobj, ht']
  · intro I
    rw [hmigobj]
    exact migrateObj_idem _ I _
  · refine ⟨(s.long_term_groups.getD ⟨true, []⟩).rows.map
        (fun r => { r with category := backfillCat r.category }), ?_, ?_⟩
    · rw [hmig, addIndexes_groups, migrate_groups]
      rfl
    · intro r hr
      obtain ⟨r0, -, h0⟩ := List.mem_map.mp hr
      rw [← h0]
      exact backfillCat_idem r0.category
  · refine ⟨(s.records.getD ⟨true, []⟩).rows.map
        (fun r => { r with category := backfillCat r.category }), ?_, ?_⟩
    · rw [hmig, addIndexes_records, migrate_records]
      rfl
    · intro r hr
      obtain ⟨r0, -, h0⟩ := List.mem_map.mp hr
      rw [← h0]
      exact backfillCat_idem r0.category
  · rw [hmig, addIndexes_shortTerms, migrate_shortTerms]
    rfl
  · rw [hmig, addIndexes_ux, migrate_ux]
    rfl

theorem map_congr_fun {α β : Type} {f g : α → β} (h : ∀ x, f x = g x) (l : List α) :
    l.map f = l.map g := by
  induction l with
  | nil => rfl
  | cons x xs ih => simp [h x, ih]

theorem foldl_insertOrReplace_of_nodup :
    ∀ (l acc : List ObjRow),
    (l.map (fun r => r.workspace_id)).Nodup →
    (∀ a ∈ acc, ∀ r ∈ l, a.workspace_id ≠ r.workspace_id) →
    List.foldl insertOrReplace acc l = acc ++ l := by
  intro l
  induction l with
  | nil => intro acc _ _; simp
  | cons r rest ih =>
    intro acc hnd hsep
    simp only [List.foldl_cons]
    have hfil : insertOrReplace acc r = acc ++ [r] := by
      unfold insertOrReplace
      congr 1
      apply List.filter_eq_self.mpr
      intro a ha
      have hne := hsep a ha r (by simp)
      have hb : (a.workspace_id == r.workspace_id) = false := by
        simp [beq_eq_false_iff_ne, hne]
      simp [hb]
    rw [hfil]
    have hnd0 : r.workspace_id ∉ rest.map (fun x => x.workspace_id) ∧
        (rest.map (fun x => x.workspace_id)).Nodup := by
      simpa [List.nodup_cons] using hnd
    have hsep' : ∀ a ∈ acc ++ [r], ∀ x ∈ rest, a.workspace_id ≠ x.workspace_id := by
      intro a ha x hx
      rcases List.mem_append.mp ha with h | h
      · exact hsep a h x (by simp [hx])
      · have ha' : a = r := by simpa using h
        subst ha'
        intro hcontra
        apply hnd0.1
        rw [hcontra]
        exact List.mem_map.mpr ⟨x, hx, rfl⟩
    rw [ih (acc ++ [r]) hnd0.2 hsep', List.append_assoc]
    rfl

theorem insertOrReplaceAll_of_nodup (rows : List ObjRow)
    (h : (rows.map (fun r => r.workspace_id)).Nodup) :
    insertOrReplaceAll rows = rows := by
  unfold insertOrReplaceAll
  rw [foldl_insertOrReplace_of_nodup rows [] h (by simp)]
  rfl

end Schema

/-! ## C3: legacy objectives-table migration -/

/-- The column shape of a legacy `objectives` table: single primary key
on `workspace_id`, no `category` column. -/
def legacyCols : List Schema.ObjCol :=
  [⟨"workspace_id", 1⟩, ⟨"target_date", 0⟩, ⟨"teaching_goal", 0⟩]

/-- A schema state with an empty `workspaces` table and a legacy
`objectives` table holding one row whose `workspace_id` (5) matches no
workspace. -/
def c3OrphanSDB : Schema.SDB :=
  ⟨some ⟨true, true, true, []⟩,
   some ⟨legacyCols, [⟨5, none, "2024-01-01", "X"⟩]⟩,
   some ⟨true, []⟩, true, some ⟨true, []⟩, true, true, true, true⟩

/-- C3 (counterexample): the migration does **not** copy every legacy
row — the copy statement is an `INSERT ... SELECT ... JOIN workspaces`,
so a legacy row whose `workspace_id` matches no workspace row is
silently dropped. Here the legacy table holds the row
`(5, "2024-01-01", "X")`, no workspace with id 5 exists, and the
migrated composite-key table comes out empty instead of holding
`(5, 定向, "2024-01-01", "X")` as the claim requires. -/
theorem c3_counterexample_orphan_row :
    c3OrphanSDB.objectives
      = some ⟨legacyCols, [⟨5, none, "2024-01-01", "X"⟩]⟩
    ∧ (Schema.migrate c3OrphanSDB).objectives = some ⟨Schema.freshObjCols, []⟩ := by
  decide

/-- C3 (amended): for a legacy-shaped `objectives` table (single-column
primary key on `workspace_id`; `target_date` and `teaching_goal`
present; primary-key invariant: distinct `workspace_id`s; when a
`category` column exists its values are non-NULL, since the new table
declares `category NOT NULL`), the migration replaces the table by the
composite-key table containing exactly the legacy rows **whose
`workspace_id` matches an existing workspace row**, each under category
`定向` when the legacy table lacks a `category` column and with its
category copied verbatim otherwise; the old table is dropped and the new
one takes its place. -/
theorem c3_legacy_migration_amended (s : Schema.SDB) (w : Schema.WTable)
    (t : Schema.ObjTable) (wsCol : Schema.ObjCol)
    (hws : s.workspaces = some w)
    (hobj : s.objectives = some t)
    (hpk : ¬ 2 ≤ Schema.pkCount t)
    (hfind : t.cols.find? (fun c => c.name == "workspace_id") = some wsCol)
    (hpk1 : wsCol.pk = 1)
    (htd : t.cols.any (fun c => c.name == "target_date") = true)
    (htg : t.cols.any (fun c => c.name == "teaching_goal") = true)
    (hnodup : (t.rows.map (fun r => r.workspace_id)).Nodup)
    (_hnn : t.cols.any (fun c => c.name == "category") = true → ∀ r ∈ t.rows, r.category.isSome) :
    Schema.migrate s
      = { s with objectives := some ⟨Schema.freshObjCols,
          (t.rows.filter (fun r => (w.rows.map (fun x => x.id)).contains r.workspace_id)).map
            (fun r => if t.cols.any (fun c => c.name == "category") = true then r
                      else { r with category := some "定向" })⟩ } := by
  have hsub : ((t.rows.filter (fun r => (w.rows.map (fun x => x.id)).contains r.workspace_id)).map
      (fun r => r.workspace_id)).Sublist (t.rows.map (fun r => r.workspace_id)) :=
    (List.filter_sublist _).map _
  have hnd1 := hnodup.sublist hsub
  have hpres : ∀ r : Schema.ObjRow,
      ((if t.cols.any (fun c => c.name == "category") = true then r
        else { r with category := some "定向" }) : Schema.ObjRow).workspace_id
        = r.workspace_id := by
    intro r
    split <;> rfl
  have hnd2 : (((t.rows.filter
        (fun r => (w.rows.map (fun x => x.id)).contains r.workspace_id)).map
      (fun r => if t.cols.any (fun c => c.name == "category") = true then r
                else { r with category := some "定向" })).map
      (fun r => r.workspace_id)).Nodup := by
    rw [List.map_map]
    have he : ((fun (r : Schema.ObjRow) => r.workspace_id) ∘
        (fun r => if t.cols.any (fun c => c.name == "category") = true then r
                  else { r with category := some "定向" }))
        = fun (r : Schema.ObjRow) => r.workspace_id := by
      funext r
      exact hpres r
    rw [he]
    exact hnd1
  simp only [Schema.migrate, hws]
  rw [hobj, Schema.migrateObj_swap hpk hfind hpk1 htd htg,
    Schema.insertOrReplaceAll_of_nodup _ hnd2]

/-- A schema state like `c3OrphanSDB` but with workspace 5 present, so
the single legacy row survives the join. -/
def c3LegacySDB : Schema.SDB :=
  ⟨some ⟨true, true, true, [⟨5, "000005", "2024-01-01", none, none, none⟩]⟩,
   some ⟨legacyCols, [⟨5, none, "2024-01-01", "X"⟩]⟩,
   some ⟨true, []⟩, true, some ⟨true, []⟩, true, true, true, true⟩

theorem c3_witness_legacy_example :
    Schema.migrate c3LegacySDB
      = { c3LegacySDB with objectives := some ⟨Schema.freshObjCols,
          [⟨5, some "定向", "2024-01-01", "X"⟩]⟩ } := by
  have h := c3_legacy_migration_amended c3LegacySDB
    ⟨true, true, true, [⟨5, "000005", "2024-01-01", none, none, none⟩]⟩
    ⟨legacyCols, [⟨5, none, "2024-01-01", "X"⟩]⟩
    ⟨"workspace_id", 1⟩ rfl rfl (by decide) (by decide) rfl (by decide) (by decide)
    (by decide) (by decide)
  rw [h]
  decide

/-! ## C4: migration idempotence -/

/-- C4: the schema-evolution step is idempotent — running `init_db` a
second time on any database state (and the model's steps are total, so
the second run raises nothing) leaves the state of the first run
unchanged; in particular the objectives-table swap is skipped whenever
the table's primary key is already composite (`pk_count >= 2`) and when
the table does not exist. -/
theorem c4_migration_idempotent :
    (∀ s : Schema.SDB, Schema.initDb (Schema.initDb s) = Schema.initDb s)
    ∧ (∀ (I : List Nat) (t : Schema.ObjTable), 2 ≤ Schema.pkCount t →
        Schema.migrateObj I (some t) = some t)
    ∧ (∀ I : List Nat, Schema.migrateObj I none = none) := by
  refine ⟨?_, ?_, fun I => rfl⟩
  · intro s
    exact Schema.stable_fixed (Schema.initDb_stable s)
  · intro I t h
    exact Schema.migrateObj_skip_pk h I

/-- An initially empty schema state (fresh install). -/
def c4FreshSDB : Schema.SDB := ⟨none, none, none, false, none, false, false, false, false⟩

theorem c4_witness :
    Schema.initDb (Schema.initDb c4FreshSDB) = Schema.initDb c4FreshSDB
    ∧ 2 ≤ Schema.pkCount ⟨Schema.freshObjCols, []⟩
    ∧ Schema.migrateObj [] (some ⟨Schema.freshObjCols, []⟩) = some ⟨Schema.freshObjCols, []⟩ :=
  ⟨c4_migration_idempotent.1 c4FreshSDB, by decide,
   c4_migration_idempotent.2.1 [] ⟨Schema.freshObjCols, []⟩ (by decide)⟩

/-! ## Concrete witnesses -/

/-- An empty database (all sequence counters at 1, as `AUTOINCREMENT` starts). -/
def emptyDB : DB := ⟨1, 1, 1, 1, [], [], [], [], []⟩

/-- The spec's reconciliation example: indices submitted as
`{3: "B", 1: "A", 7: "C"}`, no short terms. -/
def c1ExForm : Form :=
  ⟨["long_term_goal_3", "long_term_goal_1", "long_term_goal_7"],
   fun k =>
     if k = "long_term_goal_1" then some "A"
     else if k = "long_term_goal_3" then some "B"
     else if k = "long_term_goal_7" then some "C"
     else none,
   fun _ => []⟩

theorem c1_witness :
    groupsPayload c1ExForm ≠ []
    ∧ (((objectivesPost c1ExForm 1 "定向" "2024-01-01" 100 emptyDB).2.long_term_groups.filter
          (fun g => g.workspace_id == 1 && g.category == normCat "定向")).map
          (fun g => (g.long_term_goal, g.ord)))
        = [("A", 1), ("B", 2), ("C", 3)] :=
  ⟨by decide, by
    have h := (c1_reconciler_sorted_order c1ExForm 1 "定向" "2024-01-01" 100 emptyDB
      (by decide) (by decide)).2.1
    rw [h]
    decide⟩

/-- A form with no goal keys at all. -/
def c6EmptyForm : Form := ⟨[], fun _ => none, fun _ => []⟩

/-- A form whose only long-term text is blank after trimming. -/
def c6BlankForm : Form :=
  ⟨["long_term_goal_0"],
   fun k => if k = "long_term_goal_0" then some "   " else none,
   fun _ => []⟩

/-- A form with a blank group 0 (which has a non-blank short-term item)
and a surviving group 2 whose short-term items need trimming/dropping. -/
def c6MixedForm : Form :=
  ⟨["long_term_goal_0", "long_term_goal_2"],
   fun k =>
     if k = "long_term_goal_0" then some "  "
     else if k = "long_term_goal_2" then some " A " else none,
   fun k =>
     if k = "short_term_0[]" then ["X"]
     else if k = "short_term_2[]" then [" s1 ", "  ", "s2"] else []⟩

theorem c6_witness :
    objectivesPost c6EmptyForm 1 "定向" "2024-01-01" 100 emptyDB
        = (SaveResult.err "至少需要一個長期目標。", emptyDB)
    ∧ objectivesPost c6BlankForm 1 "定向" "2024-01-01" 100 emptyDB
        = (SaveResult.err "長期目標不可全空白。", emptyDB)
    ∧ groupsPayload c6MixedForm = [("A", ["s1", "s2"])] :=
  ⟨(c6_validation_blank_filtering c6EmptyForm 1 "定向" "2024-01-01" 100 emptyDB).1 (by decide),
   (c6_validation_blank_filtering c6BlankForm 1 "定向" "2024-01-01" 100 emptyDB).2.1
     (by decide) (by decide),
   by
     have h := (c6_validation_blank_filtering c6MixedForm 1 "定向" "2024-01-01" 100 emptyDB).2.2.1
     rw [h]
     decide⟩

/-- Database with one record belonging to workspace 2 / `生活`. -/
def c8ExDB : DB := ⟨3, 1, 1, 2, [], [], [], [], [⟨1, 2, "生活", "d", "t", "e", 0⟩]⟩

theorem c8_witness : recordsDeletePost 1 "定向" 1 c8ExDB = c8ExDB :=
  (c8_delete_record_scoped 1 "定向" 1 c8ExDB).2 (by decide)

theorem c10_witness :
    getObjectives (studentCreateFlow "000123" "學員" "機構" 0 "2024-01-01" emptyDB).2
        (studentCreateFlow "000123" "學員" "機構" 0 "2024-01-01" emptyDB).1 "定向"
      = some ⟨1, "定向", "2024-01-01", ""⟩
    ∧ getObjectives (studentCreateFlow "000123" "學員" "機構" 0 "2024-01-01" emptyDB).2
        (studentCreateFlow "000123" "學員" "機構" 0 "2024-01-01" emptyDB).1 "生活"
      = some ⟨1, "生活", "2024-01-01", ""⟩
    ∧ (getLongTermGroups (studentCreateFlow "000123" "學員" "機構" 0 "2024-01-01" emptyDB).2
        (studentCreateFlow "000123" "學員" "機構" 0 "2024-01-01" emptyDB).1 "定向").map
          (fun g => (g.long_term_goal, g.ord))
      = [("感官知覺/動作能力", 1)]
    ∧ (getLongTermGroups (studentCreateFlow "000123" "學員" "機構" 0 "2024-01-01" emptyDB).2
        (studentCreateFlow "000123" "學員" "機構" 0 "2024-01-01" emptyDB).1 "生活").map
          (fun g => (g.long_term_goal, g.ord))
      = [("感官知覺/動作能力", 1)] := by
  have h := c10_seed_defaults "000123" "學員" "機構" 0 "2024-01-01" emptyDB
    (by decide) (by decide)
  exact ⟨h.1, h.2.1, h.2.2.1, h.2.2.2⟩
